import Mathlib

/-!
Shallow embedding of `egs/gigaspeech/context_ASR/zipformer/asr_datamodule.py`
(the GigaSpeech ASR data module).

The Python file is a configuration-driven factory: given an argparse namespace
it builds train/valid/test dataloaders, and memoized cut-set accessors that
load manifests from disk.  We embed:

* the argument namespace with the defaults declared in `add_arguments`;
* lhotse `CutSet` values *as constructed by this module* — a structural term
  recording which manifest was loaded, which streams were multiplexed with
  which weights, and which truncation was applied; a denotation `CutSet.sem`
  maps such a term to the list of cuts it stands for, given an environment
  mapping manifest paths to their contents (the `mux` interleaving is random
  and external to this module, so it is supplied as an oracle function);
* the dataset / sampler / dataloader configuration records that the three
  `*_dataloaders` methods assemble (the external library classes are black
  boxes; we record the constructor arguments the module passes to them);
* the `lru_cache` memoization of `train_cuts` / `dev_cuts` / `test_cuts` as an
  explicit cache state threaded through a trace of accessor calls.
-/

namespace AsrDatamodule

/-- The argparse namespace built by `GigaSpeechAsrDataModule.add_arguments`;
field defaults mirror the declared CLI defaults. -/
structure Args where
  manifest_dir : String := "data/fbank"
  max_duration : Int := 1000
  bucketing_sampler : Bool := true
  num_buckets : Nat := 30
  shuffle : Bool := true
  drop_last : Bool := true
  return_cuts : Bool := true
  num_workers : Nat := 2
  enable_spec_aug : Bool := true
  spec_aug_time_warp_factor : Int := 80
  enable_gaussian_noise : Bool := true
  input_strategy : String := "AudioSamples"
  subset : String := "M"
  small_dev : Bool := false
deriving DecidableEq

/-- `pathlib`'s `dir / name` on the manifest directory. -/
def pjoin (d f : String) : String := d ++ "/" ++ f

/-- A lhotse `CutSet` as constructed by this module: a loaded manifest,
`CutSet.mux` of three streams with a weight list, or `.subset(first=n)`. -/
inductive CutSet where
  | manifest (path : String)
  | mux3 (a b c : CutSet) (weights : List Nat)
  | subsetFirst (base : CutSet) (n : Nat)
deriving DecidableEq

/-- Denotation of a constructed `CutSet` as the list of cuts it yields.
`env` maps a manifest path to the cuts stored in that file;
`muxFn` is the (randomized, library-side) interleaving of `CutSet.mux`,
supplied as an oracle; `.subset(first=n)` keeps the first `n` cuts. -/
def CutSet.sem {α : Type} (env : String → List α)
    (muxFn : List α → List α → List α → List Nat → List α) : CutSet → List α
  | CutSet.manifest p => env p
  | CutSet.mux3 a b c ws =>
      muxFn (CutSet.sem env muxFn a) (CutSet.sem env muxFn b)
        (CutSet.sem env muxFn c) ws
  | CutSet.subsetFirst base n => (CutSet.sem env muxFn base).take n

/-- `_SeedWorkers`: a picklable callable storing a base seed. -/
structure SeedWorkers where
  seed : Int
deriving DecidableEq

/-- `_SeedWorkers.__call__(worker_id)` calls `fix_random_seed(seed + worker_id)`;
we return the seed value it installs. -/
def SeedWorkers.call (s : SeedWorkers) (worker_id : Int) : Int :=
  s.seed + worker_id

/-- An input transform appended to `input_transforms`; the module only ever
constructs `DiscretizedInputAugment`, recorded with its keyword arguments. -/
inductive Transform where
  | discretizedInputAugment (token_type : String) (time_warp_factor : Int)
      (num_frame_masks : Nat) (tokens_mask_size : Nat) (num_token_masks : Nat)
      (frames_mask_size : Nat)
deriving DecidableEq

/-- A `DiscretizedInputSpeechRecognitionDataset`, recorded by the keyword
arguments the module passes; `frequency_size` is `none` when the keyword is
omitted at the call site, and an omitted `input_transforms` keyword means no
transforms are applied (the library default). -/
structure Dataset where
  field : String
  num_tokens : Nat
  frequency_size : Option Nat
  token_type : String
  input_transforms : List Transform
deriving DecidableEq

/-- The sampler the module constructs: `DynamicBucketingSampler` (with
`num_buckets` / `drop_last` being `none` when the keyword is omitted) or
`SimpleCutSampler`. -/
inductive Sampler where
  | dynamicBucketing (cuts : CutSet) (max_duration : Int) (shuffle : Bool)
      (num_buckets : Option Nat) (drop_last : Option Bool)
  | simpleCut (cuts : CutSet) (max_duration : Int) (shuffle : Bool)
deriving DecidableEq

/-- A sampler state dict (`Dict[str, Any]`), kept abstract as key/value pairs. -/
structure SamplerStateDict where
  entries : List (String × Int)
deriving DecidableEq

/-- A `torch.utils.data.DataLoader` as configured by this module. -/
structure DataLoaderCfg where
  dataset : Dataset
  sampler : Sampler
  batch_size : Option Nat
  num_workers : Nat
  persistent_workers : Bool
  worker_init_fn : Option SeedWorkers
  loaded_sampler_state : Option SamplerStateDict

/-- The piece of the installed lhotse library that `train_dataloaders`
introspects: `inspect.signature(DiscretizedInputAugment.__init__)
.parameters["num_frame_masks"].default`. -/
structure LhotseLib where
  num_frame_masks_default : Int

/-- `GigaSpeechAsrDataModule.train_dataloaders`.  `rng_state` models the
process-wide random state in scope when the method runs; the executed code
never reads it (the line deriving `seed` from `torch.randint` is commented
out) and sets `seed = 42`. -/
def train_dataloaders (lib : LhotseLib) (args : Args) (cuts_train : CutSet)
    (sampler_state_dict : Option SamplerStateDict) (rng_state : Int) :
    DataLoaderCfg :=
  let input_transforms : List Transform :=
    if args.enable_spec_aug then
      let num_frame_masks : Nat :=
        if lib.num_frame_masks_default = 1 then 2 else 10
      [Transform.discretizedInputAugment "wavlm" args.spec_aug_time_warp_factor
        num_frame_masks 27 4 100]
    else []
  let train : Dataset :=
    { field := "discrete_tokens", num_tokens := 2000, frequency_size := some 80,
      token_type := "wavlm", input_transforms := input_transforms }
  let train_sampler : Sampler :=
    if args.bucketing_sampler then
      Sampler.dynamicBucketing cuts_train args.max_duration args.shuffle
        (some args.num_buckets) (some args.drop_last)
    else
      Sampler.simpleCut cuts_train args.max_duration args.shuffle
  let seed : Int := 42
  let worker_init_fn := SeedWorkers.mk seed
  let _ := rng_state
  { dataset := train, sampler := train_sampler, batch_size := none,
    num_workers := args.num_workers, persistent_workers := false,
    worker_init_fn := some worker_init_fn,
    loaded_sampler_state := sampler_state_dict }

/-- `GigaSpeechAsrDataModule.valid_dataloaders`. -/
def valid_dataloaders (args : Args) (cuts_valid : CutSet) : DataLoaderCfg :=
  let validate : Dataset :=
    { field := "discrete_tokens", num_tokens := 2000, frequency_size := none,
      token_type := "wavlm", input_transforms := [] }
  let valid_sampler : Sampler :=
    Sampler.dynamicBucketing cuts_valid args.max_duration false none none
  { dataset := validate, sampler := valid_sampler, batch_size := none,
    num_workers := 2, persistent_workers := false,
    worker_init_fn := none, loaded_sampler_state := none }

/-- `GigaSpeechAsrDataModule.test_dataloaders` (no `persistent_workers`
keyword is passed; the `DataLoader` default is `False`). -/
def test_dataloaders (args : Args) (cuts : CutSet) : DataLoaderCfg :=
  let test : Dataset :=
    { field := "discrete_tokens", num_tokens := 2000, frequency_size := none,
      token_type := "wavlm", input_transforms := [] }
  let sampler : Sampler :=
    Sampler.dynamicBucketing cuts args.max_duration false none none
  { dataset := test, sampler := sampler, batch_size := none,
    num_workers := args.num_workers, persistent_workers := false,
    worker_init_fn := none, loaded_sampler_state := none }

/-- `GigaSpeechAsrDataModule.train_cuts` (uncached body): the "M" and "XL"
branches each multiplex three manifests with literal weights; any other
subset value falls through both branches, so the method returns `None`. -/
def train_cuts (args : Args) : Option CutSet :=
  if args.subset = "M" then
    some (CutSet.mux3
      (CutSet.manifest (pjoin args.manifest_dir "gigaspeech_cuts_M_future.jsonl.gz"))
      (CutSet.manifest (pjoin args.manifest_dir "gigaspeech_cuts_M-sp0_9_future.jsonl.gz"))
      (CutSet.manifest (pjoin args.manifest_dir "gigaspeech_cuts_M-sp1_1_future.jsonl.gz"))
      [909401, 909401, 909401])
  else if args.subset = "XL" then
    some (CutSet.mux3
      (CutSet.manifest (pjoin args.manifest_dir "gigaspeech_cuts_XL.jsonl.gz"))
      (CutSet.manifest (pjoin args.manifest_dir "gigaspeech_cuts_XL-sp0_9.jsonl.gz"))
      (CutSet.manifest (pjoin args.manifest_dir "gigaspeech_cuts_XL-sp1_1.jsonl.gz"))
      [8277188, 8277188, 8277188])
  else none

/-- `GigaSpeechAsrDataModule.dev_cuts` (uncached body). -/
def dev_cuts (args : Args) : CutSet :=
  let cuts_valid :=
    CutSet.manifest (pjoin args.manifest_dir "gigaspeech_cuts_DEV_future.jsonl.gz")
  if args.small_dev then CutSet.subsetFirst cuts_valid 1000 else cuts_valid

/-- `GigaSpeechAsrDataModule.test_cuts` (uncached body). -/
def test_cuts (args : Args) : CutSet :=
  CutSet.manifest (pjoin args.manifest_dir "gigaspeech_cuts_TEST_future.jsonl.gz")

/-- The `lru_cache` state of one module instance: one slot per accessor.
`train_cache` caches an `Option CutSet` because `train_cuts` may return
`None`, which `lru_cache` also caches. -/
structure CacheState where
  train_cache : Option (Option CutSet)
  dev_cache : Option CutSet
  test_cache : Option CutSet

/-- Fresh instance: nothing cached yet. -/
def CacheState.init : CacheState :=
  { train_cache := none, dev_cache := none, test_cache := none }

/-- Which memoized accessor a call invokes. -/
inductive Accessor where
  | train
  | dev
  | test
deriving DecidableEq

/-- One call to a memoized accessor: return the cached value if present,
otherwise run the body and store the result (`functools.lru_cache` on a
zero-argument method).  `dev`/`test` results are wrapped in `some` to share
the result type with `train`. -/
def call_accessor (args : Args) : Accessor → CacheState → Option CutSet × CacheState
  | Accessor.train, st =>
    match st.train_cache with
    | some v => (v, st)
    | none =>
      let v := train_cuts args
      (v, { st with train_cache := some v })
  | Accessor.dev, st =>
    match st.dev_cache with
    | some v => (some v, st)
    | none =>
      let v := dev_cuts args
      (some v, { st with dev_cache := some v })
  | Accessor.test, st =>
    match st.test_cache with
    | some v => (some v, st)
    | none =>
      let v := test_cuts args
      (some v, { st with test_cache := some v })

/-- Run a sequence of accessor calls, threading the cache. -/
def run_trace (args : Args) : List Accessor → CacheState → CacheState
  | [], st => st
  | a :: rest, st => run_trace args rest (call_accessor args a st).2

/-- The value a call to accessor `a` would be answered with from cache, if any. -/
def cached_result (a : Accessor) (st : CacheState) : Option (Option CutSet) :=
  match a with
  | Accessor.train => st.train_cache
  | Accessor.dev => st.dev_cache.map some
  | Accessor.test => st.test_cache.map some

theorem cached_after_call (args : Args) (a : Accessor) (st : CacheState) :
    cached_result a (call_accessor args a st).2 =
      some (call_accessor args a st).1 := by
  cases a with
  | train => cases h : st.train_cache <;> simp [call_accessor, cached_result, h]
  | dev => cases h : st.dev_cache <;> simp [call_accessor, cached_result, h]
  | test => cases h : st.test_cache <;> simp [call_accessor, cached_result, h]

theorem call_of_cached (args : Args) (a : Accessor) (st : CacheState)
    (v : Option CutSet) (h : cached_result a st = some v) :
    call_accessor args a st = (v, st) := by
  cases a with
  | train =>
    simp [cached_result] at h
    simp [call_accessor, h]
  | dev =>
    cases hd : st.dev_cache with
    | none => simp [cached_result, hd] at h
    | some w =>
      simp [cached_result, hd] at h
      subst h
      simp [call_accessor, hd]
  | test =>
    cases ht : st.test_cache with
    | none => simp [cached_result, ht] at h
    | some w =>
      simp [cached_result, ht] at h
      subst h
      simp [call_accessor, ht]

theorem cached_preserved (args : Args) (a b : Accessor) (st : CacheState)
    (v : Option CutSet) (h : cached_result a st = some v) :
    cached_result a (call_accessor args b st).2 = some v := by
  by_cases hab : b = a
  · subst hab
    rw [call_of_cached args b st v h]
    exact h
  · cases b with
    | train =>
      cases hc : st.train_cache with
      | some w => simpa [call_accessor, hc] using h
      | none =>
        cases a with
        | train => exact absurd rfl hab
        | dev => simpa [call_accessor, hc, cached_result] using h
        | test => simpa [call_accessor, hc, cached_result] using h
    | dev =>
      cases hc : st.dev_cache with
      | some w => simpa [call_accessor, hc] using h
      | none =>
        cases a with
        | dev => exact absurd rfl hab
        | train => simpa [call_accessor, hc, cached_result] using h
        | test => simpa [call_accessor, hc, cached_result] using h
    | test =>
      cases hc : st.test_cache with
      | some w => simpa [call_accessor, hc] using h
      | none =>
        cases a with
        | test => exact absurd rfl hab
        | train => simpa [call_accessor, hc, cached_result] using h
        | dev => simpa [call_accessor, hc, cached_result] using h

theorem cached_run_trace (args : Args) (a : Accessor) (tr : List Accessor)
    (st : CacheState) (v : Option CutSet) (h : cached_result a st = some v) :
    cached_result a (run_trace args tr st) = some v := by
  induction tr generalizing st with
  | nil => exact h
  | cons b rest ih =>
    exact ih _ (cached_preserved args a b st v h)

/-- C1: the worker initializer installed by `train_dataloaders` derives the
per-worker seed `base seed + worker id` for every base seed and worker id,
and the base seed is the constant 42 regardless of the configuration, the
cuts, the sampler state dict, and the ambient random state. -/
theorem worker_seed_policy :
    (∀ (s w : Int), (SeedWorkers.mk s).call w = s + w) ∧
    (∀ (lib : LhotseLib) (args : Args) (cuts : CutSet)
        (sd : Option SamplerStateDict) (rng : Int),
      (train_dataloaders lib args cuts sd rng).worker_init_fn =
        some (SeedWorkers.mk 42)) ∧
    (∀ (lib : LhotseLib) (args : Args) (cuts : CutSet)
        (sd : Option SamplerStateDict) (rng w : Int),
      ((train_dataloaders lib args cuts sd rng).worker_init_fn).map
          (fun f => SeedWorkers.call f w) = some (42 + w)) := by
  refine ⟨fun s w => rfl, fun lib args cuts sd rng => rfl, ?_⟩
  intro lib args cuts sd rng w
  rfl

/-- C2: for subset "M", `train_cuts` multiplexes the unperturbed, sp0.9 and
sp1.1 manifest streams with three equal weights of 909401; for subset "XL",
with three equal weights of 8277188. -/
theorem train_cuts_mux_weights (args : Args) :
    (args.subset = "M" →
      train_cuts args = some (CutSet.mux3
        (CutSet.manifest (pjoin args.manifest_dir "gigaspeech_cuts_M_future.jsonl.gz"))
        (CutSet.manifest (pjoin args.manifest_dir "gigaspeech_cuts_M-sp0_9_future.jsonl.gz"))
        (CutSet.manifest (pjoin args.manifest_dir "gigaspeech_cuts_M-sp1_1_future.jsonl.gz"))
        [909401, 909401, 909401])) ∧
    (args.subset = "XL" →
      train_cuts args = some (CutSet.mux3
        (CutSet.manifest (pjoin args.manifest_dir "gigaspeech_cuts_XL.jsonl.gz"))
        (CutSet.manifest (pjoin args.manifest_dir "gigaspeech_cuts_XL-sp0_9.jsonl.gz"))
        (CutSet.manifest (pjoin args.manifest_dir "gigaspeech_cuts_XL-sp1_1.jsonl.gz"))
        [8277188, 8277188, 8277188])) := by
  constructor
  · intro h
    simp [train_cuts, h]
  · intro h
    simp [train_cuts, h]

/-- Witness for C2 at the default arguments (subset "M") and at "XL". -/
theorem train_cuts_mux_weights_witness :
    (({} : Args).subset = "M" ∧
      train_cuts {} = some (CutSet.mux3
        (CutSet.manifest "data/fbank/gigaspeech_cuts_M_future.jsonl.gz")
        (CutSet.manifest "data/fbank/gigaspeech_cuts_M-sp0_9_future.jsonl.gz")
        (CutSet.manifest "data/fbank/gigaspeech_cuts_M-sp1_1_future.jsonl.gz")
        [909401, 909401, 909401])) ∧
    (({ subset := "XL" } : Args).subset = "XL" ∧
      train_cuts { subset := "XL" } = some (CutSet.mux3
        (CutSet.manifest "data/fbank/gigaspeech_cuts_XL.jsonl.gz")
        (CutSet.manifest "data/fbank/gigaspeech_cuts_XL-sp0_9.jsonl.gz")
        (CutSet.manifest "data/fbank/gigaspeech_cuts_XL-sp1_1.jsonl.gz")
        [8277188, 8277188, 8277188])) :=
  ⟨⟨rfl, (train_cuts_mux_weights {}).1 rfl⟩,
   ⟨rfl, (train_cuts_mux_weights { subset := "XL" }).2 rfl⟩⟩

/-- C3: with the small-dev flag set, `dev_cuts` denotes exactly the first
1000 cuts of the full dev cut set, and that result is a prefix of the
non-small-dev result (same manifest directory, same manifest contents). -/
theorem dev_cuts_small_dev (α : Type) (env : String → List α)
    (muxFn : List α → List α → List α → List Nat → List α) (args : Args) :
    CutSet.sem env muxFn (dev_cuts { args with small_dev := true }) =
      (CutSet.sem env muxFn (dev_cuts { args with small_dev := false })).take 1000 ∧
    ∃ t, CutSet.sem env muxFn (dev_cuts { args with small_dev := true }) ++ t =
      CutSet.sem env muxFn (dev_cuts { args with small_dev := false }) := by
  constructor
  · simp [dev_cuts, CutSet.sem]
  · refine ⟨(env (pjoin args.manifest_dir "gigaspeech_cuts_DEV_future.jsonl.gz")).drop 1000, ?_⟩
    simp [dev_cuts, CutSet.sem]

/-- C4: within one process (one cache state threaded through all calls),
any call to a memoized accessor made after the first call to that accessor
returns the same value as the first call, whatever other accessor calls
happen in between. -/
theorem cuts_accessors_memoized (args : Args) (a : Accessor)
    (mid : List Accessor) :
    (call_accessor args a (run_trace args (a :: mid) CacheState.init)).1 =
      (call_accessor args a CacheState.init).1 := by
  have h1 : cached_result a (call_accessor args a CacheState.init).2 =
      some (call_accessor args a CacheState.init).1 :=
    cached_after_call args a CacheState.init
  have h2 : cached_result a
      (run_trace args mid (call_accessor args a CacheState.init).2) =
      some (call_accessor args a CacheState.init).1 :=
    cached_run_trace args a mid _ _ h1
  have h3 := call_of_cached args a _ _ h2
  calc (call_accessor args a (run_trace args (a :: mid) CacheState.init)).1
      = (call_accessor args a
          (run_trace args mid (call_accessor args a CacheState.init).2)).1 := rfl
    _ = (call_accessor args a CacheState.init).1 := by rw [h3]

/-- C5: when the enable-spec-aug flag is false, the training dataset is
built with an empty list of input transforms. -/
theorem no_augment_when_disabled (lib : LhotseLib) (args : Args)
    (cuts : CutSet) (sd : Option SamplerStateDict) (rng : Int)
    (h : args.enable_spec_aug = false) :
    (train_dataloaders lib args cuts sd rng).dataset.input_transforms = [] := by
  simp [train_dataloaders, h]

/-- Witness for C5: default arguments with spec-aug disabled. -/
theorem no_augment_when_disabled_witness :
    ({ enable_spec_aug := false } : Args).enable_spec_aug = false ∧
    (train_dataloaders ⟨1⟩ { enable_spec_aug := false }
        (CutSet.manifest "m") none 0).dataset.input_transforms = [] :=
  ⟨rfl, no_augment_when_disabled ⟨1⟩ { enable_spec_aug := false }
    (CutSet.manifest "m") none 0 rfl⟩

/-- C6: when augmentation is enabled, the single augmentation transform is
built with `num_frame_masks` equal to 2 if the installed library's default
for that parameter equals 1, and 10 otherwise (all other keyword arguments
fixed as in the source). -/
theorem num_frame_masks_shim (lib : LhotseLib) (args : Args)
    (cuts : CutSet) (sd : Option SamplerStateDict) (rng : Int)
    (h : args.enable_spec_aug = true) :
    (train_dataloaders lib args cuts sd rng).dataset.input_transforms =
      [Transform.discretizedInputAugment "wavlm" args.spec_aug_time_warp_factor
        (if lib.num_frame_masks_default = 1 then 2 else 10) 27 4 100] := by
  simp [train_dataloaders, h]

/-- Witness for C6 at both library defaults 1 (giving 2 masks) and 10
(giving 10 masks), under the default arguments. -/
theorem num_frame_masks_shim_witness :
    (({} : Args).enable_spec_aug = true ∧
      (train_dataloaders ⟨1⟩ {} (CutSet.manifest "m") none 0).dataset.input_transforms =
        [Transform.discretizedInputAugment "wavlm" 80 2 27 4 100]) ∧
    (({} : Args).enable_spec_aug = true ∧
      (train_dataloaders ⟨10⟩ {} (CutSet.manifest "m") none 0).dataset.input_transforms =
        [Transform.discretizedInputAugment "wavlm" 80 10 27 4 100]) := by
  refine ⟨⟨rfl, ?_⟩, ⟨rfl, ?_⟩⟩
  · have h := num_frame_masks_shim ⟨1⟩ {} (CutSet.manifest "m") none 0 rfl
    simpa using h
  · have h := num_frame_masks_shim ⟨10⟩ {} (CutSet.manifest "m") none 0 rfl
    simpa using h

/-- C7: the training sampler is the duration-bucketed sampler with the
configured max duration, shuffle flag, bucket count and drop-last flag when
the bucketing flag is set, and the simple sampler with the configured max
duration and shuffle flag otherwise. -/
theorem train_sampler_selection (lib : LhotseLib) (args : Args)
    (cuts : CutSet) (sd : Option SamplerStateDict) (rng : Int) :
    (train_dataloaders lib args cuts sd rng).sampler =
      if args.bucketing_sampler then
        Sampler.dynamicBucketing cuts args.max_duration args.shuffle
          (some args.num_buckets) (some args.drop_last)
      else
        Sampler.simpleCut cuts args.max_duration args.shuffle := by
  by_cases h : args.bucketing_sampler <;> simp [train_dataloaders, h]

/-- C8: validation and test loaders use datasets with no input transforms
and non-shuffling bucketed samplers; the validation loader always uses 2
workers, the test loader uses the configured worker count. -/
theorem valid_test_loader_config (args : Args) (cv ct : CutSet) :
    (valid_dataloaders args cv).dataset.input_transforms = [] ∧
    (valid_dataloaders args cv).sampler =
      Sampler.dynamicBucketing cv args.max_duration false none none ∧
    (valid_dataloaders args cv).num_workers = 2 ∧
    (test_dataloaders args ct).dataset.input_transforms = [] ∧
    (test_dataloaders args ct).sampler =
      Sampler.dynamicBucketing ct args.max_duration false none none ∧
    (test_dataloaders args ct).num_workers = args.num_workers :=
  ⟨rfl, rfl, rfl, rfl, rfl, rfl⟩

/-- C9: for every subset value other than "M" and "XL", `train_cuts` falls
through both branches and returns `None` (no error is raised; the embedding
is total and yields `none`). -/
theorem train_cuts_other_subset_none (args : Args)
    (h1 : args.subset ≠ "M") (h2 : args.subset ≠ "XL") :
    train_cuts args = none := by
  simp [train_cuts, h1, h2]

/-- Witness for C9 at the CLI-advertised subset values "XS", "S" and "L". -/
theorem train_cuts_other_subset_none_witness :
    (({ subset := "XS" } : Args).subset ≠ "M" ∧
      ({ subset := "XS" } : Args).subset ≠ "XL" ∧
      train_cuts { subset := "XS" } = none) ∧
    train_cuts { subset := "S" } = none ∧
    train_cuts { subset := "L" } = none :=
  ⟨⟨by decide, by decide,
      train_cuts_other_subset_none { subset := "XS" } (by decide) (by decide)⟩,
   train_cuts_other_subset_none { subset := "S" } (by decide) (by decide),
   train_cuts_other_subset_none { subset := "L" } (by decide) (by decide)⟩

/-- C10: whatever the bucketing-sampler flag is, the validation and test
loaders use a duration-bucketed sampler; the flag only affects training. -/
theorem valid_test_always_bucketing (args : Args) (b : Bool) (cv ct : CutSet) :
    (valid_dataloaders { args with bucketing_sampler := b } cv).sampler =
      Sampler.dynamicBucketing cv args.max_duration false none none ∧
    (test_dataloaders { args with bucketing_sampler := b } ct).sampler =
      Sampler.dynamicBucketing ct args.max_duration false none none :=
  ⟨rfl, rfl⟩

end AsrDatamodule
